import Mathlib

/-!
Verification of the proxy profile state manager of `src/proxy_toggle_pro.py`
(ShreyX24/proxy-toggler).

The embedded core consists of:
- `ProxyConfig.load_proxies` / `ProxyConfig.save_proxies` (persistence, JSON file);
- `ProxyManager.get_current_proxy` / `ProxyManager.set_proxy` (Windows registry
  read/write of the `ProxyEnable`/`ProxyServer` pair);
- `ProxyToggleWidget.toggle_proxy` (the `activate(i)` operation);
- `ProxyToggleWidget.update_ui` (the `refreshFromSystem` reconciliation; the
  widget-drawing side effects `proxy_toggles[i].set_state` are presentation and
  are not modelled).

The registry, the config file and the in-memory profile list are modelled as an
explicit `World` state record; `winreg`/file exceptions are modelled by
explicit outcome flags (`SysRead.err`, the `writeOk`/`readOk` booleans,
`FileContent.malformed`).
-/

/-- One proxy profile: the Python dictionaries with keys
`"name"`, `"server"`, `"enabled"` used throughout the source. -/
structure ProxyProfile where
  name : String
  server : String
  enabled : Bool
deriving Repr, DecidableEq

/-- The Windows registry proxy state: the `ProxyEnable` DWORD (as a boolean;
the source tests its truthiness) and the `ProxyServer` string under
`Internet Settings`. -/
structure SysState where
  proxyEnable : Bool
  proxyServer : String
deriving Repr, DecidableEq

/-- Outcome of reading the registry: `err` models `winreg` raising an
exception inside `ProxyManager.get_current_proxy`. -/
inductive SysRead where
  | ok : SysState → SysRead
  | err : SysRead
deriving Repr, DecidableEq

/-- Embeds `ProxyManager.get_current_proxy`: on any exception it prints and
returns `None`; otherwise it returns the `ProxyServer` string when
`ProxyEnable` is truthy and `None` when proxying is disabled. -/
def get_current_proxy : SysRead → Option String
  | SysRead.err => none
  | SysRead.ok s => if s.proxyEnable then some s.proxyServer else none

/-- Registry effect of a successful `ProxyManager.set_proxy` call. Python
truthiness of `if proxy_server:` sends both `None` and the empty string to the
disable branch (`ProxyEnable := 0`, `ProxyServer := ""`). -/
def set_proxy_sys : Option String → SysState
  | some srv => if srv = "" then ⟨false, ""⟩ else ⟨true, srv⟩
  | none => ⟨false, ""⟩

/-- Embeds the per-profile test of `ProxyToggleWidget.update_ui`:
`is_active = (current_proxy == proxy['server']) if current_proxy else False`.
Python truthiness of `if current_proxy` makes both `None` and the empty string
take the `False` branch. -/
def is_active : Option String → String → Bool
  | none, _ => false
  | some c, server => if c = "" then false else c == server

/-- Embeds `ProxyToggleWidget.update_ui` restricted to its state effect:
recompute every profile's `enabled` flag from the current registry state
(`self.proxies[i]['enabled'] = is_active`). Names and servers are untouched. -/
def update_ui (proxies : List ProxyProfile) (reg : SysRead) : List ProxyProfile :=
  proxies.map fun p => { p with enabled := is_active (get_current_proxy reg) p.server }

/-- Embeds the in-memory mutation phase of `ProxyToggleWidget.toggle_proxy`:
the loop `for i in range(len(self.proxies)): if i != index: enabled = False`
followed by `self.proxies[index]['enabled'] = not self.proxies[index]['enabled']`.
For an in-bounds index this clears every other profile's flag and flips the
flag at `index`. -/
def toggled : List ProxyProfile → Nat → List ProxyProfile
  | [], _ => []
  | p :: rest, 0 =>
      { p with enabled := !p.enabled } :: rest.map (fun q => { q with enabled := false })
  | p :: rest, Nat.succ n => { p with enabled := false } :: toggled rest n

/-- A JSON value, the image of Python values under `json.dump`/`json.load`.
Modelling the file at the level of this AST abstracts the byte-level
serializer of the `json` module (which round-trips these values exactly,
whitespace aside). -/
inductive JsonVal where
  | str : String → JsonVal
  | num : Int → JsonVal
  | bool : Bool → JsonVal
  | null : JsonVal
  | arr : List JsonVal → JsonVal
  | obj : List (String × JsonVal) → JsonVal

/-- JSON image of one profile dictionary as `json.dump` writes it (insertion
order of the keys in the source dictionaries: name, server, enabled). -/
def encodeProfile (p : ProxyProfile) : JsonVal :=
  JsonVal.obj [("name", JsonVal.str p.name), ("server", JsonVal.str p.server),
    ("enabled", JsonVal.bool p.enabled)]

/-- JSON image of a profile list: the top-level array `json.dump` writes. -/
def encodeProfiles (l : List ProxyProfile) : JsonVal :=
  JsonVal.arr (l.map encodeProfile)

/-- Key lookup in a JSON object, as Python dictionary access `d[k]` behaves on
objects produced by `json.load` (the encoder above emits each key once). -/
def lookupField (fields : List (String × JsonVal)) (k : String) : Option JsonVal :=
  (fields.find? (fun kv => kv.1 == k)).map Prod.snd

/-- Interpretation of one JSON value as a profile dictionary, i.e. the shape
the rest of the program assumes when it reads `proxy['name']`,
`proxy['server']`, `proxy['enabled']` from the value `json.load` returned. -/
def decodeProfile : JsonVal → Option ProxyProfile
  | JsonVal.obj fs =>
      match lookupField fs "name", lookupField fs "server", lookupField fs "enabled" with
      | some (JsonVal.str n), some (JsonVal.str s), some (JsonVal.bool e) => some ⟨n, s, e⟩
      | _, _, _ => none
  | _ => none

/-- Interpretation of a JSON value as a profile list. -/
def decodeProfiles : JsonVal → Option (List ProxyProfile)
  | JsonVal.arr xs => xs.mapM decodeProfile
  | _ => none

/-- The module-level `DEFAULT_PROXIES` constant of the source. -/
def DEFAULT_PROXIES : List ProxyProfile :=
  [⟨"Office Proxy", "http://proxy-example.corp.com:912", false⟩,
   ⟨"VPN Proxy", "http://vpn-proxy.example.com:8080", false⟩]

/-- State of the config file at `CONFIG_FILE`: absent, present but not
parseable as JSON (`json.load` raises), or present with a parsed JSON value. -/
inductive FileContent where
  | absent : FileContent
  | malformed : FileContent
  | json : JsonVal → FileContent

/-- Result of `ProxyConfig.load_proxies`: the returned Python value (as its
JSON image; the source returns `json.load`'s result unvalidated), the file
state afterwards, and whether a diagnostic was printed. -/
structure LoadOutcome where
  value : JsonVal
  newFile : FileContent
  diag : Bool

/-- Embeds `ProxyConfig.load_proxies`: if the file exists, return `json.load`
of it (a `json.JSONDecodeError` is caught, printed, and the built-in defaults
are returned instead); if it does not exist, seed it with `DEFAULT_PROXIES`
via `save_proxies` and return the defaults. -/
def load_proxies : FileContent → LoadOutcome
  | FileContent.absent =>
      ⟨encodeProfiles DEFAULT_PROXIES, FileContent.json (encodeProfiles DEFAULT_PROXIES), false⟩
  | FileContent.malformed =>
      ⟨encodeProfiles DEFAULT_PROXIES, FileContent.malformed, true⟩
  | FileContent.json v => ⟨v, FileContent.json v, false⟩

/-- Embeds a successful `ProxyConfig.save_proxies`: overwrite the file with
`json.dump(proxies, f, indent=2)` (full-list overwrite, not append). -/
def save_proxies (proxies : List ProxyProfile) (_fs : FileContent) : FileContent :=
  FileContent.json (encodeProfiles proxies)

/-- The state the manager owns and touches: the in-memory profile list, the
registry proxy pair, and the config file. -/
structure World where
  proxies : List ProxyProfile
  sys : SysState
  file : FileContent

/-- The fallback profile a `getD` access yields; the source would raise
`IndexError` instead, so theorems about indexed access carry in-bounds
hypotheses. -/
def dfltProfile : ProxyProfile := ⟨"", "", false⟩

/-- The `Some server / None` argument `toggle_proxy` passes to
`ProxyManager.set_proxy` after the in-memory toggle: the server of
`self.proxies[index]` if it is now enabled, else `None`. -/
def toggleReq (proxies : List ProxyProfile) (index : Nat) : Option String :=
  let p := (toggled proxies index).getD index dfltProfile
  if p.enabled then some p.server else none

/-- Embeds `ProxyToggleWidget.toggle_proxy` (the `activate(index)` operation),
in source order: (1)+(2) clear the other flags and flip `index`'s flag
(`toggled`); (3) call `set_proxy` with the new server or `None` — its boolean
failure result is ignored (`writeOk = false` models the registry write
raising, leaving the registry unchanged); (4) `save_proxies(self.proxies)`
unconditionally; (5) `update_ui()`, re-reading the registry (`readOk = false`
models that final read raising). -/
def toggle_proxy (w : World) (index : Nat) (writeOk readOk : Bool) : World :=
  let l1 := toggled w.proxies index
  let sys1 := if writeOk then set_proxy_sys (toggleReq w.proxies index) else w.sys
  let file1 := save_proxies l1 w.file
  let l2 := update_ui l1 (if readOk then SysRead.ok sys1 else SysRead.err)
  ⟨l2, sys1, file1⟩

/-- Embeds the `refreshFromSystem` entry point: the source's standalone
`update_ui()` call (constructor line `self.update_ui()`), which reads the
registry and reconciles the flags; `readOk = false` models the registry read
raising inside `get_current_proxy`. -/
def refreshFromSystem (w : World) (readOk : Bool) : World :=
  { w with proxies := update_ui w.proxies (if readOk then SysRead.ok w.sys else SysRead.err) }

/-- Modelled from the spec: the source has no `deactivate` method (the UI only
exposes per-profile toggles); the spec describes it as "equivalent to calling
the write path with `None` and clearing all `enabled` flags". -/
def deactivate (w : World) (writeOk : Bool) : World :=
  { w with proxies := w.proxies.map (fun p => { p with enabled := false }),
           sys := if writeOk then set_proxy_sys none else w.sys }

/-- Number of profiles currently flagged enabled. -/
def countEnabled (l : List ProxyProfile) : Nat :=
  l.countP (fun p => p.enabled)

/-- The exclusivity invariant: at most one profile flagged enabled. -/
def atMostOneEnabled (l : List ProxyProfile) : Prop :=
  countEnabled l ≤ 1

instance (l : List ProxyProfile) : Decidable (atMostOneEnabled l) := by
  unfold atMostOneEnabled; infer_instance

/-- Concrete world with a single profile currently flagged enabled while the
registry reports proxying off. -/
def exWorldOn : World := ⟨[⟨"A", "s", true⟩], ⟨false, ""⟩, FileContent.absent⟩

/-- Concrete world with a single disabled profile and the registry off. -/
def exWorldOff : World := ⟨[⟨"A", "s", false⟩], ⟨false, ""⟩, FileContent.absent⟩

/-- Concrete world with a single profile flagged enabled consistently with the
registry (the registry reports its server as active). -/
def exWorldSync : World := ⟨[⟨"A", "s", true⟩], ⟨true, "s"⟩, FileContent.absent⟩

/-- Concrete world with two profiles sharing one server string, with the
registry reporting that server as active. -/
def exWorldDup : World :=
  ⟨[⟨"A", "s", false⟩, ⟨"B", "s", false⟩], ⟨true, "s"⟩, FileContent.absent⟩

/-- Concrete world holding the default profiles (distinct servers). -/
def exWorldTwo : World := ⟨DEFAULT_PROXIES, ⟨false, ""⟩, FileContent.absent⟩

/-! Helper lemmas. -/

theorem is_active_none (s : String) : is_active none s = false := rfl

theorem is_active_some_empty (s : String) : is_active (some "") s = false := by
  simp [is_active]

theorem toggled_length (l : List ProxyProfile) (i : Nat) :
    (toggled l i).length = l.length := by
  induction l generalizing i with
  | nil => cases i <;> rfl
  | cons p rest ih =>
      cases i with
      | zero => simp [toggled]
      | succ n => simp [toggled, ih]

theorem toggled_map_server (l : List ProxyProfile) (i : Nat) :
    (toggled l i).map (fun p => p.server) = l.map (fun p => p.server) := by
  induction l generalizing i with
  | nil => cases i <;> rfl
  | cons p rest ih =>
      cases i with
      | zero => simp [toggled, List.map_map, Function.comp]
      | succ n => simp [toggled, ih]

theorem toggled_getD_self (l : List ProxyProfile) (i : Nat) (h : i < l.length) :
    (toggled l i).getD i dfltProfile =
      { l.getD i dfltProfile with enabled := !(l.getD i dfltProfile).enabled } := by
  induction l generalizing i with
  | nil => simp at h
  | cons p rest ih =>
      cases i with
      | zero => simp [toggled]
      | succ n =>
          simp only [toggled, List.getD_cons_succ]
          exact ih n (by simpa using h)

theorem update_ui_toggled (l : List ProxyProfile) (i : Nat) (r : SysRead) :
    update_ui (toggled l i) r = update_ui l r := by
  induction l generalizing i with
  | nil => cases i <;> rfl
  | cons p rest ih =>
      cases i with
      | zero => simp [toggled, update_ui, List.map_map, Function.comp]
      | succ n =>
          simp only [toggled, update_ui, List.map_cons] at *
          exact congrArg _ (ih n)

theorem update_ui_getD (l : List ProxyProfile) (r : SysRead) (j : Nat) (h : j < l.length) :
    (update_ui l r).getD j dfltProfile =
      { l.getD j dfltProfile with
          enabled := is_active (get_current_proxy r) (l.getD j dfltProfile).server } := by
  have hlen : j < (update_ui l r).length := by simpa [update_ui] using h
  rw [List.getD_eq_getElem _ _ hlen, List.getD_eq_getElem _ _ h]
  simp [update_ui]

theorem update_ui_idem (l : List ProxyProfile) (r r2 : SysRead) :
    update_ui (update_ui l r) r2 = update_ui l r2 := by
  induction l with
  | nil => rfl
  | cons p rest ih =>
      simp only [update_ui, List.map_cons] at *
      exact congrArg _ ih

theorem update_ui_err (l : List ProxyProfile) :
    update_ui l SysRead.err = l.map (fun p => { p with enabled := false }) := rfl

theorem update_ui_all_not_enabled_of_none (l : List ProxyProfile) (r : SysRead)
    (h : get_current_proxy r = none) :
    (update_ui l r).all (fun p => !p.enabled) = true := by
  rw [List.all_eq_true]
  intro p hp
  rcases List.mem_map.mp hp with ⟨q, _, rfl⟩
  simp [h, is_active]

theorem countEnabled_update_ui (l : List ProxyProfile) (r : SysRead) :
    countEnabled (update_ui l r) =
      l.countP (fun p => is_active (get_current_proxy r) p.server) := by
  unfold countEnabled update_ui
  rw [List.countP_map]
  rfl

theorem countP_server_eq_le_one (l : List ProxyProfile) (cs : String)
    (hnd : (l.map (fun p => p.server)).Nodup) :
    l.countP (fun p => cs == p.server) ≤ 1 := by
  induction l with
  | nil => simp [List.countP_nil]
  | cons a t ih =>
      rw [List.map_cons, List.nodup_cons] at hnd
      rw [List.countP_cons]
      by_cases hca : cs = a.server
      · subst hca
        have ht : t.countP (fun p => a.server == p.server) = 0 := by
          rw [List.countP_eq_zero]
          intro q hq hbeq
          apply hnd.1
          rw [List.mem_map]
          refine ⟨q, hq, ?_⟩
          exact (by simpa using hbeq : a.server = q.server).symm
        simp [ht]
      · have : (cs == a.server) = false := by simpa using hca
        simp only [this, if_false, Nat.add_zero]
        exact ih hnd.2

theorem countEnabled_update_ui_le_one (l : List ProxyProfile) (r : SysRead)
    (hnd : (l.map (fun p => p.server)).Nodup) :
    countEnabled (update_ui l r) ≤ 1 := by
  rw [countEnabled_update_ui]
  cases hc : get_current_proxy r with
  | none =>
      have : l.countP (fun p => is_active none p.server) = 0 := by
        rw [List.countP_eq_zero]; intro a _ ha; simp [is_active] at ha
      omega
  | some cs =>
      by_cases hce : cs = ""
      · subst hce
        have : l.countP (fun p => is_active (some "") p.server) = 0 := by
          rw [List.countP_eq_zero]; intro a _ ha; simp [is_active] at ha
        omega
      · have hpred : (fun p : ProxyProfile => is_active (some cs) p.server) =
            (fun p : ProxyProfile => cs == p.server) := by
          funext p; simp [is_active, hce]
        rw [hpred]
        exact countP_server_eq_le_one l cs hnd

theorem decodeProfile_encodeProfile (p : ProxyProfile) :
    decodeProfile (encodeProfile p) = some p := rfl

theorem decodeProfiles_encodeProfiles (L : List ProxyProfile) :
    decodeProfiles (encodeProfiles L) = some L := by
  induction L with
  | nil => rfl
  | cons p t ih =>
      simp only [encodeProfiles, decodeProfiles, List.map_cons, List.mapM_cons,
        decodeProfile_encodeProfile]
      simp only [encodeProfiles, decodeProfiles] at ih
      rw [ih]
      rfl

theorem update_ui_all_not_enabled_of_inactive (l : List ProxyProfile) (r : SysRead)
    (h : ∀ srv, is_active (get_current_proxy r) srv = false) :
    (update_ui l r).all (fun p => !p.enabled) = true := by
  rw [List.all_eq_true]
  intro p hp
  rcases List.mem_map.mp hp with ⟨q, _, rfl⟩
  simp [h]

theorem toggleReq_eq (l : List ProxyProfile) (i : Nat) (h : i < l.length) :
    toggleReq l i = if (l.getD i dfltProfile).enabled then none
      else some (l.getD i dfltProfile).server := by
  unfold toggleReq
  rw [toggled_getD_self l i h]
  cases hb : (l.getD i dfltProfile).enabled <;> simp [hb]

theorem toggle_proxy_proxies_eq (w : World) (i : Nat) (writeOk readOk : Bool) :
    (toggle_proxy w i writeOk readOk).proxies =
      update_ui (toggled w.proxies i)
        (if readOk then SysRead.ok (toggle_proxy w i writeOk readOk).sys
         else SysRead.err) := rfl

theorem toggle_proxy_length (w : World) (i : Nat) (writeOk readOk : Bool) :
    (toggle_proxy w i writeOk readOk).proxies.length = w.proxies.length := by
  rw [toggle_proxy_proxies_eq]
  simp [update_ui, toggled_length]

theorem set_proxy_sys_some (srv : String) (h : srv ≠ "") :
    set_proxy_sys (some srv) = ⟨true, srv⟩ := by
  simp [set_proxy_sys, h]

theorem is_active_some_self (srv : String) (h : srv ≠ "") :
    is_active (some srv) srv = true := by
  simp [is_active, h]

/-! Claim theorems. -/

/-- Claim C1, counterexample: with one profile `⟨"A", "s", enabled := true⟩`
and the registry off, a failed system write during `activate(0)` does NOT
leave the in-memory flags at their pre-call values (the flag was `true`
before, `false` after), and the profile list IS persisted (the file, absent
before the call, now holds the toggled list). -/
theorem claim_C1_counterexample :
    (exWorldOn.proxies.getD 0 dfltProfile).enabled = true ∧
    ((toggle_proxy exWorldOn 0 false true).proxies.getD 0 dfltProfile).enabled = false ∧
    (toggle_proxy exWorldOn 0 false true).file =
      FileContent.json (encodeProfiles [⟨"A", "s", false⟩]) :=
  ⟨rfl, rfl, rfl⟩

/-- Claim C1 (amended): when the system write during `activate(i)` fails, the
source raises nothing and rolls nothing back: the registry is left unchanged,
the profile list with the freshly toggled flags is persisted anyway, and the
final in-memory flags are whatever reconciling against the unchanged registry
yields (so they equal the pre-call flags only when those were already
reconciled, not in general). -/
theorem claim_C1 (w : World) (i : Nat) (h : i < w.proxies.length) :
    (toggle_proxy w i false true).sys = w.sys ∧
    (toggle_proxy w i false true).file = FileContent.json (encodeProfiles (toggled w.proxies i)) ∧
    (toggle_proxy w i false true).proxies = update_ui w.proxies (SysRead.ok w.sys) := by
  refine ⟨rfl, rfl, ?_⟩
  have hrw : (toggle_proxy w i false true).proxies =
      update_ui (toggled w.proxies i) (SysRead.ok w.sys) := rfl
  rw [hrw, update_ui_toggled]

/-- Claim C1, witness. -/
theorem claim_C1_witness :
    0 < exWorldOn.proxies.length ∧
    ((toggle_proxy exWorldOn 0 false true).sys = exWorldOn.sys ∧
     (toggle_proxy exWorldOn 0 false true).file =
       FileContent.json (encodeProfiles (toggled exWorldOn.proxies 0)) ∧
     (toggle_proxy exWorldOn 0 false true).proxies =
       update_ui exWorldOn.proxies (SysRead.ok exWorldOn.sys)) :=
  ⟨by decide, claim_C1 exWorldOn 0 (by decide)⟩

/-- Claim C2, counterexample: two profiles sharing the server string `"s"`;
with the registry reporting `"s"` active, `refreshFromSystem` marks BOTH
profiles enabled, violating the at-most-one invariant. -/
theorem claim_C2_counterexample :
    ¬ atMostOneEnabled (refreshFromSystem exWorldDup true).proxies := by
  decide

/-- Claim C2 (amended): provided the profiles' server strings are pairwise
distinct, after any `activate(i)`, `refreshFromSystem` or `deactivate` call
(with any write/read outcome) at most one profile has `enabled == true`. -/
theorem claim_C2 (w : World) (i : Nat) (writeOk readOk : Bool)
    (hnd : (w.proxies.map (fun p => p.server)).Nodup) :
    atMostOneEnabled (toggle_proxy w i writeOk readOk).proxies ∧
    atMostOneEnabled (refreshFromSystem w readOk).proxies ∧
    atMostOneEnabled (deactivate w writeOk).proxies := by
  refine ⟨?_, ?_, ?_⟩
  · rw [toggle_proxy_proxies_eq]
    have hnd2 : ((toggled w.proxies i).map (fun p => p.server)).Nodup := by
      rw [toggled_map_server]; exact hnd
    exact countEnabled_update_ui_le_one _ _ hnd2
  · exact countEnabled_update_ui_le_one _ _ hnd
  · show countEnabled (w.proxies.map (fun p => { p with enabled := false })) ≤ 1
    unfold countEnabled
    rw [List.countP_map]
    have hz : w.proxies.countP
        ((fun p : ProxyProfile => p.enabled) ∘ (fun p => { p with enabled := false })) = 0 := by
      rw [List.countP_eq_zero]
      intro a _ hfa
      simp [Function.comp] at hfa
    omega

/-- Claim C2, witness (the two default profiles, distinct servers). -/
theorem claim_C2_witness :
    (exWorldTwo.proxies.map (fun p => p.server)).Nodup ∧
    (atMostOneEnabled (toggle_proxy exWorldTwo 0 true true).proxies ∧
     atMostOneEnabled (refreshFromSystem exWorldTwo true).proxies ∧
     atMostOneEnabled (deactivate exWorldTwo true).proxies) :=
  ⟨by decide, claim_C2 exWorldTwo 0 true true (by decide)⟩

/-- Claim C3, counterexample: one profile `⟨"A", "s"⟩` already enabled (and
the registry consistently reporting `"s"`); `activate(0)` twice leaves the
profile ENABLED (the first call switches it off, the second switches it back
on), so the double-activate law fails for starting states where profile `i`
is already active. -/
theorem claim_C3_counterexample :
    ((toggle_proxy (toggle_proxy exWorldSync 0 true true) 0 true true).proxies.all
       (fun p => !p.enabled)) = false := by
  decide

/-- Claim C3 (amended): if profile `i` starts with `enabled == false` and its
server string is non-empty, then `activate(i)` twice (both writes succeeding,
no other mutation) leaves every profile with `enabled == false`, the second
call passes `None` to the system write, and the final registry state has
proxying disabled. -/
theorem claim_C3 (w : World) (i : Nat) (h : i < w.proxies.length)
    (hoff : (w.proxies.getD i dfltProfile).enabled = false)
    (hs : (w.proxies.getD i dfltProfile).server ≠ "") :
    ((toggle_proxy (toggle_proxy w i true true) i true true).proxies.all
       (fun p => !p.enabled)) = true ∧
    toggleReq (toggle_proxy w i true true).proxies i = none ∧
    (toggle_proxy (toggle_proxy w i true true) i true true).sys.proxyEnable = false := by
  have hlen1 : i < (toggle_proxy w i true true).proxies.length := by
    rw [toggle_proxy_length]; exact h
  have hreq1 : toggleReq w.proxies i = some (w.proxies.getD i dfltProfile).server := by
    rw [toggleReq_eq w.proxies i h, hoff]
    simp
  have hsys1 : (toggle_proxy w i true true).sys =
      ⟨true, (w.proxies.getD i dfltProfile).server⟩ := by
    show set_proxy_sys (toggleReq w.proxies i) = _
    rw [hreq1, set_proxy_sys_some _ hs]
  have hp1 : (toggle_proxy w i true true).proxies.getD i dfltProfile =
      { w.proxies.getD i dfltProfile with enabled := true } := by
    have hrw : (toggle_proxy w i true true).proxies =
        update_ui w.proxies (SysRead.ok (toggle_proxy w i true true).sys) := by
      rw [toggle_proxy_proxies_eq]
      exact update_ui_toggled w.proxies i _
    rw [hrw, hsys1, update_ui_getD w.proxies _ i h]
    rw [show get_current_proxy
          (SysRead.ok ⟨true, (w.proxies.getD i dfltProfile).server⟩) =
        some (w.proxies.getD i dfltProfile).server from rfl]
    rw [is_active_some_self _ hs]
  have hreq2 : toggleReq (toggle_proxy w i true true).proxies i = none := by
    rw [toggleReq_eq _ i hlen1, hp1]
    simp
  have hsys2 : (toggle_proxy (toggle_proxy w i true true) i true true).sys = ⟨false, ""⟩ := by
    show set_proxy_sys (toggleReq (toggle_proxy w i true true).proxies i) = _
    rw [hreq2]
    rfl
  refine ⟨?_, hreq2, by rw [hsys2]⟩
  have hrw2 : (toggle_proxy (toggle_proxy w i true true) i true true).proxies =
      update_ui (toggled (toggle_proxy w i true true).proxies i)
        (SysRead.ok (toggle_proxy (toggle_proxy w i true true) i true true).sys) :=
    toggle_proxy_proxies_eq _ i true true
  rw [hrw2, hsys2]
  exact update_ui_all_not_enabled_of_inactive _ _ (fun srv => rfl)

/-- Claim C3, witness. -/
theorem claim_C3_witness :
    (0 < exWorldOff.proxies.length ∧
     (exWorldOff.proxies.getD 0 dfltProfile).enabled = false ∧
     (exWorldOff.proxies.getD 0 dfltProfile).server ≠ "") ∧
    (((toggle_proxy (toggle_proxy exWorldOff 0 true true) 0 true true).proxies.all
        (fun p => !p.enabled)) = true ∧
     toggleReq (toggle_proxy exWorldOff 0 true true).proxies 0 = none ∧
     (toggle_proxy (toggle_proxy exWorldOff 0 true true) 0 true true).sys.proxyEnable = false) :=
  ⟨⟨by decide, by decide, by decide⟩,
   claim_C3 exWorldOff 0 (by decide) (by decide) (by decide)⟩

/-- Claim C4, counterexample: with the registry reporting proxying ENABLED and
the server string EMPTY, a profile whose `server` is itself the empty string
satisfies the claimed condition (system enabled and string-equal server), yet
`update_ui` leaves it `enabled == false` because of the truthiness test
`if current_proxy`. -/
theorem claim_C4_counterexample :
    (SysState.mk true "").proxyEnable = true ∧
    (SysState.mk true "").proxyServer = (ProxyProfile.mk "A" "" false).server ∧
    ((update_ui [⟨"A", "", false⟩] (SysRead.ok ⟨true, ""⟩)).getD 0 dfltProfile).enabled
      = false := by
  decide

/-- Claim C4 (amended): `refreshFromSystem` sets each profile's flag to true
exactly when the system reports proxying enabled AND the system's server
string is NON-EMPTY and string-equal to that profile's server; and whenever
the system's server matches no profile's server, every profile ends disabled. -/
theorem claim_C4 (l : List ProxyProfile) (s : SysState) (j : Nat) :
    ((update_ui l (SysRead.ok s)).getD j dfltProfile).enabled =
      (s.proxyEnable && (s.proxyServer != "") &&
        (s.proxyServer == (l.getD j dfltProfile).server)) ∧
    ((l.all (fun p => s.proxyServer != p.server)) = true →
      (update_ui l (SysRead.ok s)).all (fun p => !p.enabled) = true) := by
  rcases s with ⟨en, sv⟩
  constructor
  · by_cases hj : j < l.length
    · rw [update_ui_getD l _ j hj]
      cases en with
      | false => simp [get_current_proxy, is_active]
      | true =>
          by_cases hsv : sv = ""
          · subst hsv
            simp [get_current_proxy, is_active]
          · simp [get_current_proxy, is_active, hsv]
    · have hj2 : l.length ≤ j := Nat.le_of_not_lt hj
      have h1 : (update_ui l (SysRead.ok ⟨en, sv⟩)).getD j dfltProfile = dfltProfile := by
        rw [List.getD_eq_getElem?_getD,
          List.getElem?_eq_none (by simpa [update_ui] using hj2)]
        rfl
      have h2 : l.getD j dfltProfile = dfltProfile := by
        rw [List.getD_eq_getElem?_getD, List.getElem?_eq_none hj2]
        rfl
      rw [h1, h2]
      by_cases hsv : sv = ""
      · subst hsv; simp [dfltProfile]
      · simp [dfltProfile, hsv]
  · intro hall
    rw [List.all_eq_true]
    intro p hp
    rcases List.mem_map.mp hp with ⟨q, hq, rfl⟩
    have hne : ¬(sv = q.server) := by
      have := (List.all_eq_true.mp hall) q hq
      simpa using this
    cases en with
    | false => simp [get_current_proxy, is_active]
    | true =>
        by_cases hsv : sv = ""
        · subst hsv; simp [get_current_proxy, is_active]
        · simp [get_current_proxy, is_active, hsv, hne]

/-- Claim C4, witness: a profile whose server differs from the active one. -/
theorem claim_C4_witness :
    (([⟨"A", "x", false⟩] : List ProxyProfile).all
       (fun p => (SysState.mk true "y").proxyServer != p.server)) = true ∧
    (update_ui [⟨"A", "x", false⟩] (SysRead.ok ⟨true, "y"⟩)).all
       (fun p => !p.enabled) = true :=
  ⟨by decide, (claim_C4 [⟨"A", "x", false⟩] ⟨true, "y"⟩ 0).2 (by decide)⟩

/-- Claim C5 (confirmed): saving a profile list and loading it back returns
the list itself: the stored value is the JSON image of `L`, and interpreting
it as a profile list gives back exactly `L` (whitespace does not exist at the
level of the JSON value model). -/
theorem claim_C5 (L : List ProxyProfile) (f : FileContent) :
    (load_proxies (save_proxies L f)).value = encodeProfiles L ∧
    decodeProfiles (load_proxies (save_proxies L f)).value = some L :=
  ⟨rfl, decodeProfiles_encodeProfiles L⟩

/-- Claim C6, counterexample: a file whose content is the (syntactically
valid) JSON number `42` is malformed data — it is not interpretable as a
profile list — yet `load_proxies` returns it verbatim with no diagnostic,
NOT the built-in defaults. -/
theorem claim_C6_counterexample :
    (load_proxies (FileContent.json (JsonVal.num 42))).value = JsonVal.num 42 ∧
    (load_proxies (FileContent.json (JsonVal.num 42))).diag = false ∧
    decodeProfiles (JsonVal.num 42) = none ∧
    (load_proxies (FileContent.json (JsonVal.num 42))).value ≠ encodeProfiles DEFAULT_PROXIES :=
  ⟨rfl, rfl, rfl, fun hcontra => JsonVal.noConfusion hcontra⟩

/-- Claim C6 (amended): only when the file content is not PARSEABLE as JSON
(`json.load` raises) does `load_proxies` degrade: it then returns the built-in
defaults (which do decode to `DEFAULT_PROXIES`) and emits a diagnostic,
without raising to the caller; syntactically valid JSON of any shape is
returned as parsed, unvalidated. -/
theorem claim_C6 :
    (load_proxies FileContent.malformed).value = encodeProfiles DEFAULT_PROXIES ∧
    (load_proxies FileContent.malformed).diag = true ∧
    decodeProfiles (load_proxies FileContent.malformed).value = some DEFAULT_PROXIES :=
  ⟨rfl, rfl, decodeProfiles_encodeProfiles DEFAULT_PROXIES⟩

/-- Claim C7 (confirmed): with the registry unchanged in between, two
consecutive `refreshFromSystem` calls yield identical profile-list snapshots
(the second reconciliation is a no-op on the first's output). -/
theorem claim_C7 (w : World) (readOk : Bool) :
    (refreshFromSystem (refreshFromSystem w readOk) readOk).proxies =
      (refreshFromSystem w readOk).proxies := by
  have hrw : (refreshFromSystem (refreshFromSystem w readOk) readOk).proxies =
      update_ui (update_ui w.proxies (if readOk then SysRead.ok w.sys else SysRead.err))
        (if readOk then SysRead.ok w.sys else SysRead.err) := rfl
  rw [hrw, update_ui_idem]
  rfl

/-- Claim C8 (confirmed): `refreshFromSystem` writes neither the registry nor
the config file and only rewrites `enabled` flags (names and servers are
untouched); a failed registry read is handled exactly like "no active proxy"
(`get_current_proxy` yields `none` and every flag is cleared). -/
theorem claim_C8 (w : World) (readOk : Bool) :
    (refreshFromSystem w readOk).sys = w.sys ∧
    (refreshFromSystem w readOk).file = w.file ∧
    (refreshFromSystem w readOk).proxies.map (fun p => (p.name, p.server)) =
      w.proxies.map (fun p => (p.name, p.server)) ∧
    get_current_proxy SysRead.err = none ∧
    (refreshFromSystem w false).proxies = w.proxies.map (fun p => { p with enabled := false }) := by
  refine ⟨rfl, rfl, ?_, rfl, rfl⟩
  show (update_ui w.proxies _).map _ = _
  rw [update_ui, List.map_map]
  rfl

/-- Claim C9 (confirmed): whatever the write outcome, `activate(i)` ends with
the reconciliation `update_ui`, so the post-call flags equal the
reconciliation of the profile list against the REAL post-call registry state;
the config file, however, was written before that reconciliation, from the
toggled (pre-reconciliation) flags. -/
theorem claim_C9 (w : World) (i : Nat) (writeOk : Bool) (h : i < w.proxies.length) :
    (toggle_proxy w i writeOk true).proxies =
      update_ui w.proxies (SysRead.ok (toggle_proxy w i writeOk true).sys) ∧
    (toggle_proxy w i writeOk true).file =
      FileContent.json (encodeProfiles (toggled w.proxies i)) := by
  constructor
  · have hrw : (toggle_proxy w i writeOk true).proxies =
        update_ui (toggled w.proxies i)
          (SysRead.ok (toggle_proxy w i writeOk true).sys) := rfl
    rw [hrw, update_ui_toggled]
  · rfl

/-- Claim C9, witness. -/
theorem claim_C9_witness :
    0 < exWorldOff.proxies.length ∧
    ((toggle_proxy exWorldOff 0 true true).proxies =
       update_ui exWorldOff.proxies (SysRead.ok (toggle_proxy exWorldOff 0 true true).sys) ∧
     (toggle_proxy exWorldOff 0 true true).file =
       FileContent.json (encodeProfiles (toggled exWorldOff.proxies 0))) :=
  ⟨by decide, claim_C9 exWorldOff 0 true (by decide)⟩

/-- Claim C10 (confirmed): when the registry reports proxying enabled with an
EMPTY server string, reconciliation disables every profile — including one
whose own `server` is the empty string — because `get_current_proxy` returns
the empty string and the truthiness test treats it exactly like no active
proxy (the outcome equals that of a disabled/failed read). -/
theorem claim_C10 (l : List ProxyProfile) :
    (update_ui l (SysRead.ok ⟨true, ""⟩)).all (fun p => !p.enabled) = true ∧
    get_current_proxy (SysRead.ok ⟨true, ""⟩) = some "" ∧
    update_ui l (SysRead.ok ⟨true, ""⟩) = update_ui l SysRead.err := by
  refine ⟨?_, rfl, rfl⟩
  exact update_ui_all_not_enabled_of_inactive l _ (fun srv => is_active_some_empty srv)
